import Mathlib

/-!
Verification of the command-line front end in `src/md2conf/__main__.py`.

The Python source is shallowly embedded: pure fragments become Lean
functions, Python built-ins that the source relies on (`str.split`,
`dict(...)`, `logging.getLevelName`, attribute lookup on the `logging`
module) are modelled as executable Lean definitions faithful to their
documented behaviour, the `argparse` declarations of `main` become an
explicit token-consuming parser over the command line, and the dispatch
plus error handling of `main` become a function from parsed arguments and
collaborator outcomes (the external `Processor`, `ConfluenceAPI` and
`Application` calls are oracles) to an event trace and a process outcome.
-/

namespace Md2Conf

/-! ## Models of the Python built-ins used by the source -/

/-- Helper for `pySplitEq`: split a character list at every occurrence of
the character `=`, keeping empty segments, as Python `str.split` does with
an explicit separator. -/
def splitEqChars : List Char → List (List Char)
  | [] => [[]]
  | c :: rest =>
    match splitEqChars rest with
    | [] => [[]]
    | seg :: segs => if c = '=' then [] :: seg :: segs else (c :: seg) :: segs

/-- Model of Python `x.split("=")`: split on every occurrence of `=`,
keeping empty segments; the empty string yields `[""]`. -/
def pySplitEq (s : String) : List String :=
  (splitEqChars s.data).map (fun cs => String.mk cs)

/-- Model of Python `c.lower()` on one character (ASCII range, which covers
every string the source lowers). -/
def pyCharLower (c : Char) : Char :=
  if 'A' ≤ c && c ≤ 'Z' then Char.ofNat (c.toNat + 32) else c

/-- Model of Python `c.upper()` on one character (ASCII range). -/
def pyCharUpper (c : Char) : Char :=
  if 'a' ≤ c && c ≤ 'z' then Char.ofNat (c.toNat - 32) else c

/-- Model of Python `s.lower()`. -/
def pyLower (s : String) : String := String.mk (s.data.map pyCharLower)

/-- Model of Python `s.upper()`. -/
def pyUpper (s : String) : String := String.mk (s.data.map pyCharUpper)

/-- Model of Python `s.startswith("-")`, the test `argparse` applies to
decide whether a token looks like an option. -/
def startsWithDash (s : String) : Bool :=
  match s.data with
  | [] => false
  | c :: _ => c == '-'

/-- Model of a single Python `dict` assignment `d[k] = v` on a dict held as
an insertion-ordered association list: an existing key keeps its position
and gets the new value, a new key is appended at the end. -/
def dictInsert : List (String × String) → String → String → List (String × String)
  | [], k, v => [(k, v)]
  | p :: rest, k, v => if p.1 == k then (k, v) :: rest else p :: dictInsert rest k v

/-- Model of Python `dict(pairs)` consuming a list of token fragments: each
element must be a two-element sequence `[k, v]` (otherwise `dict` raises
`ValueError`, modelled as `Except.error`), and assignments are applied left
to right so a duplicate key keeps the value of its last occurrence. -/
def pyDict : List (List String) → List (String × String) → Except Unit (List (String × String))
  | [], acc => .ok acc
  | p :: rest, acc =>
    match p with
    | [k, v] => pyDict rest (dictInsert acc k v)
    | _ => .error ()

/-- Lookup in a dict held as an association list (Python `d[k]`): the first
matching key; keys are unique in any list built by `dictInsert`. -/
def dlookup (d : List (String × String)) (k : String) : Option String :=
  (d.find? (fun p => p.1 == k)).map (fun p => p.2)

/-! ## KwargsAppendAction (`src/md2conf/__main__.py` lines 49-66) -/

/-- The message of the `argparse.ArgumentError` raised at lines 62-65; the
Python f-string interpolates the token list into the text. -/
def kwargsErrorMessage (values : List String) : String :=
  "Could not parse argument \"" ++ toString values ++
    "\". It should follow the format: k1=v1 k2=v2 ..."

/-- Embedding of `KwargsAppendAction.__call__` (lines 52-66):
`d = dict(map(lambda x: x.split("="), values))`, re-raising the
`ValueError` of `dict` as an `argparse.ArgumentError`; on success the dict
is stored (modelled by returning it). -/
def kwargsAppendCall (values : List String) : Except String (List (String × String)) :=
  match pyDict (values.map (fun x => pySplitEq x)) [] with
  | .ok d => .ok d
  | .error _ => .error (kwargsErrorMessage values)

/-! ## Model of the Python `logging` module names the source uses -/

namespace Logging

/-- Numeric value of `logging.DEBUG`. -/
def DEBUG : Nat := 10

/-- Numeric value of `logging.INFO`. -/
def INFO : Nat := 20

/-- Numeric value of `logging.WARN` (an alias of `logging.WARNING`). -/
def WARN : Nat := 30

/-- Numeric value of `logging.ERROR`. -/
def ERROR : Nat := 40

/-- Numeric value of `logging.CRITICAL`. -/
def CRITICAL : Nat := 50

/-- Model of `logging.getLevelName` on the standard numeric levels: note
that level 30 renders as the string WARNING, not WARN. -/
def getLevelName (level : Nat) : String :=
  if level == 10 then "DEBUG"
  else if level == 20 then "INFO"
  else if level == 30 then "WARNING"
  else if level == 40 then "ERROR"
  else if level == 50 then "CRITICAL"
  else "Level " ++ toString level

/-- Model of `getattr(logging, name, logging.INFO)` as used at line 183 of
the source: the named module attribute when it is one of the standard level
constants, and the default `logging.INFO` otherwise. -/
def levelAttr (name : String) : Nat :=
  if name == "DEBUG" then DEBUG
  else if name == "INFO" then INFO
  else if name == "WARN" then WARN
  else if name == "WARNING" then WARN
  else if name == "ERROR" then ERROR
  else if name == "CRITICAL" then CRITICAL
  else if name == "FATAL" then CRITICAL
  else if name == "NOTSET" then 0
  else INFO

end Logging

/-! ## The `Arguments` namespace (`src/md2conf/__main__.py` lines 30-47)

Optional string-valued flags are `Option String` (`none` is Python `None`);
`headers` is `Option` of a dict because the `--headers` option is declared
without a `default`, so `argparse` leaves the attribute `None` when the
flag is absent. The Python attribute named `local` is a Lean keyword, so
the field is written `«local»`. -/

structure Arguments where
  mdpath : Option String
  domain : Option String
  path : Option String
  username : Option String
  apikey : Option String
  space : Option String
  loglevel : String
  root_page : Option String
  generated_by : Option String
  render_mermaid : Bool
  diagram_output_format : String
  heading_anchors : Bool
  ignore_invalid_url : Bool
  «local» : Bool
  headers : Option (List (String × String))
  webui_links : Bool
  deriving DecidableEq, Repr

/-- The argument defaults exactly as declared by the `add_argument` calls
(lines 72-175): `loglevel` defaults to `logging.getLevelName(logging.INFO)`
(the string INFO, line 104, with no `.lower()`), `generated_by` to the
banner text (line 114), `render_mermaid` to true (line 128),
`diagram_output_format` to png (line 141), the remaining toggles to false,
and `headers` to `None` since line 162-169 declares no default. -/
def initialArguments : Arguments where
  mdpath := none
  domain := none
  path := none
  username := none
  apikey := none
  space := none
  loglevel := Logging.getLevelName Logging.INFO
  root_page := none
  generated_by := some "This page has been generated with a tool."
  render_mermaid := true
  diagram_output_format := "png"
  heading_anchors := false
  ignore_invalid_url := false
  «local» := false
  headers := none
  webui_links := false

/-- The `choices` list of the `-l` (long form `--loglevel`) option, lines 94-103:
`logging.getLevelName(level).lower()` for the five standard levels. -/
def loglevelChoices : List String :=
  [Logging.DEBUG, Logging.INFO, Logging.WARN, Logging.ERROR, Logging.CRITICAL].map
    (fun level => pyLower (Logging.getLevelName level))

/-- The `choices` list of `--render-mermaid-format` (line 140). -/
def diagramFormatChoices : List String := ["png", "svg"]

/-! ## The argument parser (`main`, lines 70-178)

The `argparse` processing of the declared options is embedded as a
token-consuming loop over the command line. The embedding covers the token
forms the contract of the tool is stated over: each value-taking option is
followed by its value as the next token (a following token that itself
looks like an option is rejected, as `argparse` rejects it), `nargs="*"`
collects following tokens up to the next option-looking token, options of
the same destination are applied in command-line order so the last one
wins, and the single positional `mdpath` is required. -/

/-- Single-attribute updates of the parsed namespace, one per `argparse`
destination; `argparse` performs them with `setattr` as each option action
runs. Factoring them out keeps the parse loop small. -/
def setMdpath (v : String) (a : Arguments) : Arguments := { a with mdpath := some v }

/-- Set the `domain` attribute. -/
def setDomain (v : String) (a : Arguments) : Arguments := { a with domain := some v }

/-- Set the `path` attribute. -/
def setPath (v : String) (a : Arguments) : Arguments := { a with path := some v }

/-- Set the `username` attribute. -/
def setUsername (v : String) (a : Arguments) : Arguments := { a with username := some v }

/-- Set the `apikey` attribute. -/
def setApikey (v : String) (a : Arguments) : Arguments := { a with apikey := some v }

/-- Set the `space` attribute. -/
def setSpace (v : String) (a : Arguments) : Arguments := { a with space := some v }

/-- Set the `loglevel` attribute. -/
def setLoglevel (v : String) (a : Arguments) : Arguments := { a with loglevel := v }

/-- Set the `root_page` attribute. -/
def setRootPage (v : String) (a : Arguments) : Arguments := { a with root_page := some v }

/-- Set the `generated_by` attribute (`store_const None` passes `none`). -/
def setGeneratedBy (v : Option String) (a : Arguments) : Arguments := { a with generated_by := v }

/-- Set the `render_mermaid` attribute. -/
def setRenderMermaid (v : Bool) (a : Arguments) : Arguments := { a with render_mermaid := v }

/-- Set the `diagram_output_format` attribute. -/
def setDiagramFormat (v : String) (a : Arguments) : Arguments := { a with diagram_output_format := v }

/-- Set the `heading_anchors` attribute. -/
def setHeadingAnchors (v : Bool) (a : Arguments) : Arguments := { a with heading_anchors := v }

/-- Set the `ignore_invalid_url` attribute. -/
def setIgnoreInvalidUrl (v : Bool) (a : Arguments) : Arguments := { a with ignore_invalid_url := v }

/-- Set the `local` attribute. -/
def setLocal (v : Bool) (a : Arguments) : Arguments := { a with «local» := v }

/-- Set the `headers` attribute. -/
def setHeaders (v : List (String × String)) (a : Arguments) : Arguments := { a with headers := some v }

/-- Set the `webui_links` attribute. -/
def setWebuiLinks (v : Bool) (a : Arguments) : Arguments := { a with webui_links := v }

/-- Outcome of `parser.parse_args`: a populated namespace, the
version-printing exit of the `--version` action (line 72), or an argparse
error (which prints usage and exits with code 2). -/
inductive ParseOutcome where
  | ok (args : Arguments)
  | versionExit
  | error (msg : String)
  deriving DecidableEq, Repr

/-- Collect the `nargs="*"` values of `--headers`: following tokens up to
the first option-looking token. -/
def collectStar : List String → List String × List String
  | [] => ([], [])
  | t :: rest =>
    if startsWithDash t then ([], t :: rest)
    else
      match collectStar rest with
      | (vals, remaining) => (t :: vals, remaining)

/-- Consume the single value of a value-taking option: the next token,
which must exist and must not itself look like an option. -/
def withValue (opt : String) (rest : List String)
    (continue_ : String → List String → ParseOutcome) : ParseOutcome :=
  match rest with
  | [] => .error ("argument " ++ opt ++ ": expected one argument")
  | v :: r =>
    if startsWithDash v then .error ("argument " ++ opt ++ ": expected one argument")
    else continue_ v r

/-- The option-processing loop, fuelled for termination; the branches are
in the order of the `add_argument` declarations (lines 72-175), and the
missing-positional check mirrors `argparse` requiring `mdpath`. -/
def parseLoopF : Nat → List String → Arguments → ParseOutcome
  | 0, _, _ => .error "internal: out of fuel"
  | _ + 1, [], a =>
    if a.mdpath.isSome then .ok a
    else .error "the following arguments are required: mdpath"
  | fuel + 1, t :: rest, a =>
    if t == "--version" then .versionExit
    else if t == "-d" || t == "--domain" then
      withValue t rest (fun v r => parseLoopF fuel r (setDomain v a))
    else if t == "-p" || t == "--path" then
      withValue t rest (fun v r => parseLoopF fuel r (setPath v a))
    else if t == "-u" || t == "--username" then
      withValue t rest (fun v r => parseLoopF fuel r (setUsername v a))
    else if t == "-a" || t == "--apikey" then
      withValue t rest (fun v r => parseLoopF fuel r (setApikey v a))
    else if t == "-s" || t == "--space" then
      withValue t rest (fun v r => parseLoopF fuel r (setSpace v a))
    else if t == "-l" || t == "--loglevel" then
      withValue t rest (fun v r =>
        if loglevelChoices.contains v then parseLoopF fuel r (setLoglevel v a)
        else .error ("argument -l/--loglevel: invalid choice: " ++ v))
    else if t == "-r" then
      withValue t rest (fun v r => parseLoopF fuel r (setRootPage v a))
    else if t == "--generated-by" then
      withValue t rest (fun v r => parseLoopF fuel r (setGeneratedBy (some v) a))
    else if t == "--no-generated-by" then
      parseLoopF fuel rest (setGeneratedBy none a)
    else if t == "--render-mermaid" then
      parseLoopF fuel rest (setRenderMermaid true a)
    else if t == "--no-render-mermaid" then
      parseLoopF fuel rest (setRenderMermaid false a)
    else if t == "--render-mermaid-format" then
      withValue t rest (fun v r =>
        if diagramFormatChoices.contains v then
          parseLoopF fuel r (setDiagramFormat v a)
        else .error ("argument --render-mermaid-format: invalid choice: " ++ v))
    else if t == "--heading-anchors" then
      parseLoopF fuel rest (setHeadingAnchors true a)
    else if t == "--ignore-invalid-url" then
      parseLoopF fuel rest (setIgnoreInvalidUrl true a)
    else if t == "--local" then
      parseLoopF fuel rest (setLocal true a)
    else if t == "--headers" then
      match collectStar rest with
      | (vals, remaining) =>
        match kwargsAppendCall vals with
        | .ok d => parseLoopF fuel remaining (setHeaders d a)
        | .error msg => .error msg
    else if t == "--webui-links" then
      parseLoopF fuel rest (setWebuiLinks true a)
    else if startsWithDash t then .error ("unrecognized arguments: " ++ t)
    else if a.mdpath.isNone then parseLoopF fuel rest (setMdpath t a)
    else .error ("unrecognized arguments: " ++ t)

/-- `parser.parse_args(namespace=args)` (line 178): run the loop on the
command line starting from the declared defaults. One unit of fuel is spent
per processed token, so `argv.length + 1` units always suffice. -/
def parseArgs (argv : List String) : ParseOutcome :=
  parseLoopF (argv.length + 1) argv initialArguments

/-! ## Configuration assembly (`main`, lines 187-198) -/

/-- The fields `ConfluenceDocumentOptions` is constructed with at lines
187-195; the collaborator type itself lives outside the supplied source, so
only this constructed record is modelled. -/
structure ConfluenceDocumentOptions where
  heading_anchors : Bool
  ignore_invalid_url : Bool
  generated_by : Option String
  root_page_id : Option String
  render_mermaid : Bool
  diagram_output_format : String
  webui_links : Bool
  deriving DecidableEq, Repr

/-- The fields `ConfluenceProperties` is constructed with at lines 196-198
(positionally: domain, path, username, apikey, space, headers). -/
structure ConfluenceProperties where
  domain : Option String
  path : Option String
  username : Option String
  apikey : Option String
  space : Option String
  headers : Option (List (String × String))
  deriving DecidableEq, Repr

/-- The `options = ConfluenceDocumentOptions(...)` assembly, lines 187-195. -/
def assembleOptions (args : Arguments) : ConfluenceDocumentOptions where
  heading_anchors := args.heading_anchors
  ignore_invalid_url := args.ignore_invalid_url
  generated_by := args.generated_by
  root_page_id := args.root_page
  render_mermaid := args.render_mermaid
  diagram_output_format := args.diagram_output_format
  webui_links := args.webui_links

/-- The `properties = ConfluenceProperties(...)` assembly, lines 196-198. -/
def assembleProperties (args : Arguments) : ConfluenceProperties where
  domain := args.domain
  path := args.path
  username := args.username
  apikey := args.apikey
  space := args.space
  headers := args.headers

/-! ## Dispatch and the error surface (`main`, lines 199-218)

The collaborators invoked at lines 200, 203 and 207 are outside the
supplied source; each is represented by an oracle giving the outcome of
its one invocation: `Except.ok ()` for a normal return and `Except.error e`
for a raised exception. -/

/-- A response attached to a `requests.exceptions.HTTPError`: `jsonBody` is
the decoded body when `response.json()` succeeds and `none` when it raises
`requests.exceptions.JSONDecodeError`. -/
structure HttpResponse where
  jsonBody : Option String
  deriving DecidableEq, Repr

/-- A Python exception as the source distinguishes them: a
`requests.exceptions.HTTPError` with its message and optional response
(line 208 checks `err.response is not None`), or any other exception
(filesystem errors, renderer failures, non-transport remote errors). -/
inductive PyExc where
  | httpError (msg : String) (response : Option HttpResponse)
  | other (msg : String)
  deriving DecidableEq, Repr

/-- The observable steps of one `main` invocation, in order: the
`logging.basicConfig` call (line 182), the `Processor(...).process` call
(line 200), entering and leaving the `with ConfluenceAPI(properties)`
block (line 203), the `Application(...).synchronize` call (lines 204-207),
and the `logging.error` calls of the handler (lines 209 and 214). -/
inductive Event where
  | configureLogging (level : Nat)
  | processLocal (mdpath : String) (options : ConfluenceDocumentOptions)
      (properties : ConfluenceProperties)
  | acquireAPI (properties : ConfluenceProperties)
  | synchronize (mdpath : String) (options : ConfluenceDocumentOptions)
  | releaseAPI
  | logError (msg : String)
  | logErrorJson (body : String)
  deriving DecidableEq, Repr

/-- How the process run ends: falling off the end of `main`, `sys.exit`
with a code, an uncaught exception reaching the interpreter boundary, the
`--version` action, or `argparse` rejecting the command line. -/
inductive Outcome where
  | normal
  | exited (code : Nat)
  | uncaught (e : PyExc)
  | versionShown
  | argError (msg : String)
  deriving DecidableEq, Repr

/-- The `except requests.exceptions.HTTPError` handler, lines 208-218:
log the error message, then, when a response is attached, log its JSON body
while silently swallowing a `JSONDecodeError` (lines 212-216), and call
`sys.exit(1)`. Any other exception is not caught and propagates. `done` is
the event trace accumulated before the exception reached the handler. -/
def errorSurface (done : List Event) (e : PyExc) : List Event × Outcome :=
  match e with
  | .httpError msg response =>
    (done ++ [Event.logError msg] ++
      (match response with
       | some r =>
         match r.jsonBody with
         | some body => [Event.logErrorJson body]
         | none => []
       | none => []),
     .exited 1)
  | .other m => (done, .uncaught (.other m))

/-- The dispatch of lines 199-218. On the local branch (line 200) the
`Processor` is invoked once and nothing guards it, so its exception (if
any) propagates. On the remote branch the `with` block acquires the
`ConfluenceAPI` handle, runs `synchronize`, and releases the handle on both
the normal and the exceptional exit (the context manager `__exit__` runs
before the `except` clause); an exception raised while entering the block
skips the release but is still inside the `try`. -/
def dispatch (localFlag : Bool) (mdpath : String)
    (options : ConfluenceDocumentOptions) (properties : ConfluenceProperties)
    (processResult enterResult syncResult : Except PyExc Unit) :
    List Event × Outcome :=
  if localFlag then
    match processResult with
    | .ok _ => ([Event.processLocal mdpath options properties], .normal)
    | .error e => ([Event.processLocal mdpath options properties], .uncaught e)
  else
    match enterResult with
    | .error e => errorSurface [] e
    | .ok _ =>
      match syncResult with
      | .ok _ =>
        ([Event.acquireAPI properties, Event.synchronize mdpath options,
          Event.releaseAPI], .normal)
      | .error e =>
        errorSurface
          [Event.acquireAPI properties, Event.synchronize mdpath options,
            Event.releaseAPI] e

/-- The whole of `main` (lines 69-218): parse the command line, configure
logging from the upper-cased log level (lines 182-185), assemble the two
configuration records (lines 187-198) and dispatch (lines 199-218). On an
`argparse` error or the `--version` action the process exits before any
configuration is assembled, so the event trace is empty. -/
def mainRun (argv : List String)
    (processResult enterResult syncResult : Except PyExc Unit) :
    List Event × Outcome :=
  match parseArgs argv with
  | .error msg => ([], .argError msg)
  | .versionExit => ([], .versionShown)
  | .ok args =>
    match dispatch args.«local» (args.mdpath.getD "")
        (assembleOptions args) (assembleProperties args)
        processResult enterResult syncResult with
    | (events, outcome) =>
      (Event.configureLogging (Logging.levelAttr (pyUpper args.loglevel)) :: events,
       outcome)

/-- The `headers` attribute left by a successful parse of `argv`: `none`
when the parse does not succeed. -/
def headersAfterParse (argv : List String) : Option (Option (List (String × String))) :=
  match parseArgs argv with
  | .ok args => some args.headers
  | _ => none

/-- The `render_mermaid` attribute left by a successful parse of `argv`:
`none` when the parse does not succeed. -/
def renderMermaidAfterParse (argv : List String) : Option Bool :=
  match parseArgs argv with
  | .ok args => some args.render_mermaid
  | _ => none

/-- The `generated_by` attribute left by a successful parse of `argv`:
`none` when the parse does not succeed. -/
def generatedByAfterParse (argv : List String) : Option (Option String) :=
  match parseArgs argv with
  | .ok args => some args.generated_by
  | _ => none

/-- The namespace parsed from the command line `doc.md --local`, used to
instantiate theorems at a concrete input. -/
def argsDocLocal : Arguments := setLocal true (setMdpath "doc.md" initialArguments)

/-! ## Specification-side definitions and lemmas about the header parser -/

/-- The key and value of a token holding exactly one `=`: the two fragments
of the split. For any other token the parser fails, and this returns a pair
of empty strings that no theorem relies on. -/
def tokenPair (t : String) : String × String :=
  match pySplitEq t with
  | [k, v] => (k, v)
  | _ => ("", "")

/-- Stated from the claim text, for comparison with the code: divide a
token on the FIRST `=` into the key and the (possibly `=`-containing)
remainder; `none` when the token has no `=` at all. -/
def splitFirstEq (t : String) : Option (String × String) :=
  match pySplitEq t with
  | [] => none
  | [_] => none
  | k :: rest => some (k, String.intercalate "=" rest)

/-- Stated from the claim text, for comparison with the code: the value of
the LAST occurrence of key `q` among `pairs` (the first match in the
reversed list), `none` when `q` never occurs. -/
def lastValue (pairs : List (String × String)) (q : String) : Option String :=
  (pairs.reverse.find? (fun p => p.1 == q)).map (fun p => p.2)

/-- The dict built by folding the assignments of the well-formed tokens
left to right, as `dict(map(...))` does. -/
def kwargsFold (values : List String) : List (String × String) :=
  values.foldl (fun d t => dictInsert d (tokenPair t).1 (tokenPair t).2) []

theorem dlookup_cons (p : String × String) (d : List (String × String)) (q : String) :
    dlookup (p :: d) q = if p.1 == q then some p.2 else dlookup d q := by
  simp only [dlookup, List.find?]
  by_cases h : p.1 == q <;> simp [h]

theorem dlookup_dictInsert (d : List (String × String)) (k v q : String) :
    dlookup (dictInsert d k v) q = if k == q then some v else dlookup d q := by
  induction d with
  | nil =>
    simp only [dictInsert, dlookup_cons, dlookup]
    by_cases h : k == q <;> simp [h, List.find?]
  | cons p rest ih =>
    simp only [dictInsert]
    by_cases hpk : p.1 == k
    · rw [if_pos hpk, dlookup_cons, dlookup_cons]
      have hpk' : p.1 = k := by simpa using hpk
      by_cases hkq : k == q
      · simp [hkq]
      · simp [hkq, hpk', hpk]
    · rw [if_neg hpk, dlookup_cons, dlookup_cons, ih]
      have hpk' : ¬ p.1 = k := by simpa using hpk
      by_cases hpq : p.1 == q
      · have hpq' : p.1 = q := by simpa using hpq
        have : ¬ k == q := by
          simp only [beq_iff_eq]
          intro hkq
          exact hpk' (hpq'.trans hkq.symm)
        simp [hpq, this]
      · simp [hpq]

theorem find_append_or (l₁ l₂ : List (String × String)) (f : String × String → Bool) :
    List.find? f (l₁ ++ l₂) = (List.find? f l₁).or (List.find? f l₂) := by
  induction l₁ with
  | nil => simp [Option.or]
  | cons p rest ih =>
    simp only [List.cons_append, List.find?]
    by_cases h : f p <;> simp [h, ih, Option.or]

theorem lastValue_cons (p : String × String) (rest : List (String × String)) (q : String) :
    lastValue (p :: rest) q =
      (lastValue rest q).or (if p.1 == q then some p.2 else none) := by
  simp only [lastValue, List.reverse_cons, find_append_or]
  by_cases h : p.1 == q <;>
    cases hfind : List.find? (fun r => r.1 == q) rest.reverse <;>
      simp [h, hfind, List.find?, Option.or]

theorem dlookup_foldl (values : List String)
    (acc : List (String × String)) (q : String) :
    dlookup (values.foldl (fun d t => dictInsert d (tokenPair t).1 (tokenPair t).2) acc) q =
      (lastValue (values.map tokenPair) q).or (dlookup acc q) := by
  induction values generalizing acc with
  | nil => simp [lastValue, Option.or]
  | cons t rest ih =>
    simp only [List.foldl_cons, List.map_cons, lastValue_cons, ih, dlookup_dictInsert]
    by_cases h : (tokenPair t).1 == q <;>
      cases hl : lastValue (rest.map tokenPair) q <;> simp [h, hl, Option.or]

/-- A token list whose every member splits into exactly two fragments makes
`pyDict` succeed with the left-to-right fold of the assignments. -/
theorem pyDict_ok (values : List String) (acc : List (String × String))
    (hw : ∀ t ∈ values, (pySplitEq t).length = 2) :
    pyDict (values.map (fun x => pySplitEq x)) acc =
      .ok (values.foldl (fun d t => dictInsert d (tokenPair t).1 (tokenPair t).2) acc) := by
  induction values generalizing acc with
  | nil => simp [pyDict]
  | cons t rest ih =>
    have ht : (pySplitEq t).length = 2 := hw t (List.mem_cons_self t rest)
    match hsplit : pySplitEq t with
    | [] => simp [hsplit] at ht
    | [_] => simp [hsplit] at ht
    | _ :: _ :: _ :: _ => simp [hsplit] at ht
    | [k, v] =>
      simp only [List.map_cons, pyDict, hsplit, List.foldl_cons, tokenPair]
      exact ih _ (fun u hu => hw u (List.mem_cons_of_mem t hu))

/-- A token that does not split into exactly two fragments makes `pyDict`
fail no matter where it sits in the list. -/
theorem pyDict_err (values : List String) (acc : List (String × String))
    (t : String) (ht : t ∈ values) (hbad : (pySplitEq t).length ≠ 2) :
    pyDict (values.map (fun x => pySplitEq x)) acc = .error () := by
  induction values generalizing acc with
  | nil => cases ht
  | cons u rest ih =>
    match hsplit : pySplitEq u with
    | [k, v] =>
      simp only [List.map_cons, pyDict, hsplit]
      rcases List.mem_cons.mp ht with hut | hmem
      · exact absurd (show (pySplitEq t).length = 2 by simp [hut, hsplit]) hbad
      · exact ih _ hmem
    | [] =>
      simp [List.map_cons, pyDict, hsplit]
    | [x] =>
      simp [List.map_cons, pyDict, hsplit]
    | x :: y :: z :: w =>
      simp [List.map_cons, pyDict, hsplit]

/-! ## Lemmas about the argument parser -/

/-- Unfolding of `parseLoopF` at zero fuel. -/
theorem parseLoopF_zero (l : List String) (a : Arguments) :
    parseLoopF 0 l a = .error "internal: out of fuel" := rfl

/-- Unfolding of `parseLoopF` on an exhausted command line. -/
theorem parseLoopF_nil (n : Nat) (a : Arguments) :
    parseLoopF (n + 1) [] a =
      (if a.mdpath.isSome then .ok a
       else .error "the following arguments are required: mdpath") := rfl

/-- One-step unfolding of `parseLoopF` on the next token, stated once so
later proofs rewrite with it instead of unfolding the definition. -/
theorem parseLoopF_cons (n : Nat) (t : String) (rest : List String) (a : Arguments) :
    parseLoopF (n + 1) (t :: rest) a =
      (if t == "--version" then .versionExit
    else if t == "-d" || t == "--domain" then
      withValue t rest (fun v r => parseLoopF n r (setDomain v a))
    else if t == "-p" || t == "--path" then
      withValue t rest (fun v r => parseLoopF n r (setPath v a))
    else if t == "-u" || t == "--username" then
      withValue t rest (fun v r => parseLoopF n r (setUsername v a))
    else if t == "-a" || t == "--apikey" then
      withValue t rest (fun v r => parseLoopF n r (setApikey v a))
    else if t == "-s" || t == "--space" then
      withValue t rest (fun v r => parseLoopF n r (setSpace v a))
    else if t == "-l" || t == "--loglevel" then
      withValue t rest (fun v r =>
        if loglevelChoices.contains v then parseLoopF n r (setLoglevel v a)
        else .error ("argument -l/--loglevel: invalid choice: " ++ v))
    else if t == "-r" then
      withValue t rest (fun v r => parseLoopF n r (setRootPage v a))
    else if t == "--generated-by" then
      withValue t rest (fun v r => parseLoopF n r (setGeneratedBy (some v) a))
    else if t == "--no-generated-by" then
      parseLoopF n rest (setGeneratedBy none a)
    else if t == "--render-mermaid" then
      parseLoopF n rest (setRenderMermaid true a)
    else if t == "--no-render-mermaid" then
      parseLoopF n rest (setRenderMermaid false a)
    else if t == "--render-mermaid-format" then
      withValue t rest (fun v r =>
        if diagramFormatChoices.contains v then
          parseLoopF n r (setDiagramFormat v a)
        else .error ("argument --render-mermaid-format: invalid choice: " ++ v))
    else if t == "--heading-anchors" then
      parseLoopF n rest (setHeadingAnchors true a)
    else if t == "--ignore-invalid-url" then
      parseLoopF n rest (setIgnoreInvalidUrl true a)
    else if t == "--local" then
      parseLoopF n rest (setLocal true a)
    else if t == "--headers" then
      match collectStar rest with
      | (vals, remaining) =>
        match kwargsAppendCall vals with
        | .ok d => parseLoopF n remaining (setHeaders d a)
        | .error msg => .error msg
    else if t == "--webui-links" then
      parseLoopF n rest (setWebuiLinks true a)
    else if startsWithDash t then .error ("unrecognized arguments: " ++ t)
    else if a.mdpath.isNone then parseLoopF n rest (setMdpath t a)
    else .error ("unrecognized arguments: " ++ t)) := rfl


theorem withValue_ok (opt : String) (rest : List String)
    (k : String → List String → ParseOutcome) (args : Arguments)
    (h : withValue opt rest k = .ok args) :
    ∃ v r, rest = v :: r ∧ startsWithDash v = false ∧ k v r = .ok args := by
  cases rest with
  | nil => exact ParseOutcome.noConfusion h
  | cons v r =>
    simp only [withValue] at h
    split at h
    · exact ParseOutcome.noConfusion h
    · exact ⟨v, r, rfl, by simpa using ‹¬ startsWithDash v = true›, h⟩

/-- The parse loop never sets the `headers` attribute unless it processes
the literal token `--headers`: the attribute keeps its `None` default. -/
theorem parseLoopF_headers_none (fuel : Nat) :
    ∀ (l : List String) (a args : Arguments),
      "--headers" ∉ l → a.headers = none →
      parseLoopF fuel l a = .ok args → args.headers = none := by
  induction fuel with
  | zero =>
    intro l a args _ _ h
    rw [parseLoopF_zero] at h
    exact ParseOutcome.noConfusion h
  | succ n ih =>
    intro l a args hmem ha h
    cases l with
    | nil =>
      rw [parseLoopF_nil] at h
      split at h
      · injection h with h
        exact h ▸ ha
      · exact ParseOutcome.noConfusion h
    | cons t rest =>
      have hmem_rest : "--headers" ∉ rest := fun hr => hmem (List.mem_cons_of_mem t hr)
      have hne : t ≠ "--headers" := fun he => hmem (he ▸ List.mem_cons_self t rest)
      rw [parseLoopF_cons] at h
      by_cases c1 : (t == "--version") = true
      · rw [if_pos c1] at h
        exact ParseOutcome.noConfusion h
      rw [if_neg c1] at h
      by_cases c2 : (t == "-d" || t == "--domain") = true
      · rw [if_pos c2] at h
        obtain ⟨v, r, hrest, hv, hk⟩ := withValue_ok _ _ _ _ h
        subst hrest
        exact ih r (setDomain v a) args (fun hr => hmem_rest (List.mem_cons_of_mem v hr)) ha hk
      rw [if_neg c2] at h
      by_cases c3 : (t == "-p" || t == "--path") = true
      · rw [if_pos c3] at h
        obtain ⟨v, r, hrest, hv, hk⟩ := withValue_ok _ _ _ _ h
        subst hrest
        exact ih r (setPath v a) args (fun hr => hmem_rest (List.mem_cons_of_mem v hr)) ha hk
      rw [if_neg c3] at h
      by_cases c4 : (t == "-u" || t == "--username") = true
      · rw [if_pos c4] at h
        obtain ⟨v, r, hrest, hv, hk⟩ := withValue_ok _ _ _ _ h
        subst hrest
        exact ih r (setUsername v a) args (fun hr => hmem_rest (List.mem_cons_of_mem v hr)) ha hk
      rw [if_neg c4] at h
      by_cases c5 : (t == "-a" || t == "--apikey") = true
      · rw [if_pos c5] at h
        obtain ⟨v, r, hrest, hv, hk⟩ := withValue_ok _ _ _ _ h
        subst hrest
        exact ih r (setApikey v a) args (fun hr => hmem_rest (List.mem_cons_of_mem v hr)) ha hk
      rw [if_neg c5] at h
      by_cases c6 : (t == "-s" || t == "--space") = true
      · rw [if_pos c6] at h
        obtain ⟨v, r, hrest, hv, hk⟩ := withValue_ok _ _ _ _ h
        subst hrest
        exact ih r (setSpace v a) args (fun hr => hmem_rest (List.mem_cons_of_mem v hr)) ha hk
      rw [if_neg c6] at h
      by_cases c7 : (t == "-l" || t == "--loglevel") = true
      · rw [if_pos c7] at h
        obtain ⟨v, r, hrest, hv, hk⟩ := withValue_ok _ _ _ _ h
        subst hrest
        split at hk
        · exact ih r (setLoglevel v a) args (fun hr => hmem_rest (List.mem_cons_of_mem v hr)) ha hk
        · exact ParseOutcome.noConfusion hk
      rw [if_neg c7] at h
      by_cases c8 : (t == "-r") = true
      · rw [if_pos c8] at h
        obtain ⟨v, r, hrest, hv, hk⟩ := withValue_ok _ _ _ _ h
        subst hrest
        exact ih r (setRootPage v a) args (fun hr => hmem_rest (List.mem_cons_of_mem v hr)) ha hk
      rw [if_neg c8] at h
      by_cases c9 : (t == "--generated-by") = true
      · rw [if_pos c9] at h
        obtain ⟨v, r, hrest, hv, hk⟩ := withValue_ok _ _ _ _ h
        subst hrest
        exact ih r (setGeneratedBy (some v) a) args (fun hr => hmem_rest (List.mem_cons_of_mem v hr)) ha hk
      rw [if_neg c9] at h
      by_cases c10 : (t == "--no-generated-by") = true
      · rw [if_pos c10] at h
        exact ih rest (setGeneratedBy none a) args hmem_rest ha h
      rw [if_neg c10] at h
      by_cases c11 : (t == "--render-mermaid") = true
      · rw [if_pos c11] at h
        exact ih rest (setRenderMermaid true a) args hmem_rest ha h
      rw [if_neg c11] at h
      by_cases c12 : (t == "--no-render-mermaid") = true
      · rw [if_pos c12] at h
        exact ih rest (setRenderMermaid false a) args hmem_rest ha h
      rw [if_neg c12] at h
      by_cases c13 : (t == "--render-mermaid-format") = true
      · rw [if_pos c13] at h
        obtain ⟨v, r, hrest, hv, hk⟩ := withValue_ok _ _ _ _ h
        subst hrest
        split at hk
        · exact ih r (setDiagramFormat v a) args (fun hr => hmem_rest (List.mem_cons_of_mem v hr)) ha hk
        · exact ParseOutcome.noConfusion hk
      rw [if_neg c13] at h
      by_cases c14 : (t == "--heading-anchors") = true
      · rw [if_pos c14] at h
        exact ih rest (setHeadingAnchors true a) args hmem_rest ha h
      rw [if_neg c14] at h
      by_cases c15 : (t == "--ignore-invalid-url") = true
      · rw [if_pos c15] at h
        exact ih rest (setIgnoreInvalidUrl true a) args hmem_rest ha h
      rw [if_neg c15] at h
      by_cases c16 : (t == "--local") = true
      · rw [if_pos c16] at h
        exact ih rest (setLocal true a) args hmem_rest ha h
      rw [if_neg c16] at h
      by_cases c17 : (t == "--headers") = true
      · exact absurd (beq_iff_eq.mp c17) hne
      rw [if_neg c17] at h
      by_cases c18 : (t == "--webui-links") = true
      · rw [if_pos c18] at h
        exact ih rest (setWebuiLinks true a) args hmem_rest ha h
      rw [if_neg c18] at h
      by_cases c19 : startsWithDash t = true
      · rw [if_pos c19] at h
        exact ParseOutcome.noConfusion h
      rw [if_neg c19] at h
      by_cases c20 : a.mdpath.isNone = true
      · rw [if_pos c20] at h
        exact ih rest (setMdpath t a) args hmem_rest ha h
      rw [if_neg c20] at h
      exact ParseOutcome.noConfusion h

/-- Lookup in the dict produced by folding the well-formed tokens equals
the last-occurrence lookup among the token pairs. -/
theorem dlookup_kwargsFold (values : List String) (q : String) :
    dlookup (kwargsFold values) q = lastValue (values.map tokenPair) q := by
  have h := dlookup_foldl values [] q
  rw [kwargsFold, h]
  cases lastValue (values.map tokenPair) q <;> rfl

/-! ## The claims -/

/-- C1 (corrected). The parse fails as a whole, with the descriptive
error naming the offending input and the expected format and with no
partial map produced, exactly when some token does not contain exactly one
separator (it lacks `=`, or holds two or more); this theorem proves the
failure half: any token whose split does not have exactly two fragments
fails the whole parse. (The original claim also made an empty key fail;
the counterexample shows the code accepts an empty key.) -/
theorem claim_C1 (values : List String) (t : String)
    (ht : t ∈ values) (hbad : (pySplitEq t).length ≠ 2) :
    kwargsAppendCall values = .error (kwargsErrorMessage values) := by
  unfold kwargsAppendCall
  rw [pyDict_err values [] t ht hbad]

/-- C1, the counterexample to the claim as stated: the token `=v` divides
on its only `=` into an EMPTY key and the value `v`, so the claim requires
the parse to fail, yet the code accepts it and maps the empty key. -/
theorem claim_C1_counterexample :
    kwargsAppendCall ["=v"] = .ok [("", "v")] ∧
    splitFirstEq "=v" = some ("", "v") := ⟨rfl, rfl⟩

/-- C1, the amended theorem instantiated: `novalue` has no `=`, so the
whole parse of `a=1 novalue` fails with the descriptive error. -/
theorem claim_C1_witness :
    ("novalue" ∈ ["a=1", "novalue"]) ∧ (pySplitEq "novalue").length ≠ 2 ∧
    kwargsAppendCall ["a=1", "novalue"] = .error (kwargsErrorMessage ["a=1", "novalue"]) :=
  ⟨by decide, by decide, claim_C1 ["a=1", "novalue"] "novalue" (by decide) (by decide)⟩

/-- C2 (confirmed). When the synchronize call on the remote branch raises
an HTTP transport failure, the handler logs the message at error severity
(`logError`), logs the decoded response body when a response is attached
and its body decodes (`logErrorJson`), silently skips the body log when
decoding fails (no event, no uncaught exception), and the process exits
with code 1 in every one of these cases. -/
theorem claim_C2 (mdpath : String) (options : ConfluenceDocumentOptions)
    (properties : ConfluenceProperties) (processResult : Except PyExc Unit)
    (msg : String) (response : Option HttpResponse) :
    dispatch false mdpath options properties processResult (.ok ())
        (.error (.httpError msg response)) =
      ([Event.acquireAPI properties, Event.synchronize mdpath options, Event.releaseAPI,
        Event.logError msg] ++
        (match response with
         | some r =>
           match r.jsonBody with
           | some body => [Event.logErrorJson body]
           | none => []
         | none => []),
       .exited 1) := by
  cases response with
  | none => rfl
  | some r =>
    obtain ⟨jb⟩ := r
    cases jb <;> rfl

/-- C3 (corrected). The log-level flag accepts exactly the five lowercase
severities debug, info, warning, error, critical (NOT warn: the choices
come from `logging.getLevelName`, which renders level 30 as WARNING), the
match is case-sensitive, the argparse default is the string INFO, and any
other value is rejected by the schema with no event emitted, before any
configuration is assembled. -/
theorem claim_C3 (v : String)
    (processResult enterResult syncResult : Except PyExc Unit)
    (hv : startsWithDash v = false) :
    (parseArgs ["doc.md", "--loglevel", v] =
      (if loglevelChoices.contains v = true then
        .ok (setLoglevel v (setMdpath "doc.md" initialArguments))
       else .error ("argument -l/--loglevel: invalid choice: " ++ v))) ∧
    loglevelChoices = ["debug", "info", "warning", "error", "critical"] ∧
    initialArguments.loglevel = "INFO" ∧
    (loglevelChoices.contains v = true ∨
      mainRun ["doc.md", "--loglevel", v] processResult enterResult syncResult =
        ([], .argError ("argument -l/--loglevel: invalid choice: " ++ v))) := by
  have hne : ¬ (startsWithDash v = true) := by simp [hv]
  have hstep : parseArgs ["doc.md", "--loglevel", v] =
      (if startsWithDash v = true then
        ParseOutcome.error ("argument --loglevel: expected one argument")
       else if loglevelChoices.contains v = true then
        .ok (setLoglevel v (setMdpath "doc.md" initialArguments))
       else .error ("argument -l/--loglevel: invalid choice: " ++ v)) := rfl
  rw [if_neg hne] at hstep
  refine ⟨hstep, rfl, rfl, ?_⟩
  by_cases hc : loglevelChoices.contains v = true
  · exact Or.inl hc
  · refine Or.inr ?_
    rw [if_neg hc] at hstep
    simp only [mainRun, hstep]

/-- C3, the counterexample to the claim as stated: the claim names `warn`
among the five accepted severities and says matching is case-insensitive,
yet the schema rejects both `warn` and `INFO`. -/
theorem claim_C3_counterexample :
    parseArgs ["doc.md", "--loglevel", "warn"] =
      .error ("argument -l/--loglevel: invalid choice: warn") ∧
    parseArgs ["doc.md", "--loglevel", "INFO"] =
      .error ("argument -l/--loglevel: invalid choice: INFO") := ⟨rfl, rfl⟩

/-- C3, the amended theorem instantiated at the rejected value `bogus`. -/
theorem claim_C3_witness :
    startsWithDash "bogus" = false ∧
    ((parseArgs ["doc.md", "--loglevel", "bogus"] =
      (if loglevelChoices.contains "bogus" = true then
        .ok (setLoglevel "bogus" (setMdpath "doc.md" initialArguments))
       else .error ("argument -l/--loglevel: invalid choice: " ++ "bogus"))) ∧
    loglevelChoices = ["debug", "info", "warning", "error", "critical"] ∧
    initialArguments.loglevel = "INFO" ∧
    (loglevelChoices.contains "bogus" = true ∨
      mainRun ["doc.md", "--loglevel", "bogus"] (.ok ()) (.ok ()) (.ok ()) =
        ([], .argError ("argument -l/--loglevel: invalid choice: " ++ "bogus")))) :=
  ⟨by decide, claim_C3 "bogus" (.ok ()) (.ok ()) (.ok ()) (by decide)⟩

/-- C4 (corrected). When the `--headers` flag is absent from the command
line, a successful parse leaves the headers attribute `None` (the option
declares no default), not the empty map; absence never causes a parse
failure, as the parse of a bare positional shows. -/
theorem claim_C4 (argv : List String) (args : Arguments)
    (h1 : "--headers" ∉ argv) (h2 : parseArgs argv = .ok args) :
    args.headers = none ∧
    parseArgs ["doc.md"] = .ok (setMdpath "doc.md" initialArguments) :=
  ⟨parseLoopF_headers_none (argv.length + 1) argv initialArguments args h1 rfl h2, rfl⟩

/-- C4, the counterexample to the claim as stated: with the flag absent
the resulting attribute is `None`, which is not the empty map. -/
theorem claim_C4_counterexample :
    headersAfterParse ["doc.md"] = some none ∧
    decide (headersAfterParse ["doc.md"] = some (some [])) = false := by decide

/-- C4, the amended theorem instantiated at a command line with several
other flags and no `--headers`. -/
theorem claim_C4_witness :
    ("--headers" ∉ ["doc.md", "--local", "-d", "example.com"]) ∧
    parseArgs ["doc.md", "--local", "-d", "example.com"] =
      .ok (setDomain "example.com" argsDocLocal) ∧
    ((setDomain "example.com" argsDocLocal).headers = none ∧
      parseArgs ["doc.md"] = .ok (setMdpath "doc.md" initialArguments)) :=
  ⟨by decide, by decide,
    claim_C4 ["doc.md", "--local", "-d", "example.com"] (setDomain "example.com" argsDocLocal)
      (by decide) (by decide)⟩

/-- C5 (corrected). For tokens each containing exactly one `=` (so the
split has exactly two fragments) with a non-empty key, the parser succeeds
and the produced dict maps exactly the given keys, a duplicate key keeping
the value of its last occurrence: lookup in the result coincides with
last-occurrence lookup among the token pairs. (The original claim asked
this for every token that divides on its FIRST `=`; the counterexample
shows a token with a second `=` in the value makes the code fail.) -/
theorem claim_C5 (values : List String)
    (hw : ∀ t ∈ values, (pySplitEq t).length = 2)
    (_hk : ∀ t ∈ values, ((tokenPair t).1 == "") = false) :
    kwargsAppendCall values = .ok (kwargsFold values) ∧
    dlookup (kwargsFold values) = lastValue (values.map tokenPair) := by
  constructor
  · unfold kwargsAppendCall
    rw [pyDict_ok values [] hw]
    rfl
  · funext q
    exact dlookup_kwargsFold values q

/-- C5, the counterexample to the claim as stated: `a=b=c` divides on its
first `=` into the non-empty key `a` and the value `b=c`, so the claim
requires the parse to succeed, yet the code fails because the split yields
three fragments. -/
theorem claim_C5_counterexample :
    splitFirstEq "a=b=c" = some ("a", "b=c") ∧
    (("a" == "") = false) ∧
    kwargsAppendCall ["a=b=c"] = .error (kwargsErrorMessage ["a=b=c"]) := ⟨rfl, rfl, rfl⟩

/-- C5, the amended theorem instantiated: the duplicate key `a` keeps its
last value. -/
theorem claim_C5_witness :
    (∀ t ∈ ["a=1", "b=2", "a=3"], (pySplitEq t).length = 2) ∧
    (∀ t ∈ ["a=1", "b=2", "a=3"], ((tokenPair t).1 == "") = false) ∧
    (kwargsAppendCall ["a=1", "b=2", "a=3"] = .ok (kwargsFold ["a=1", "b=2", "a=3"]) ∧
      dlookup (kwargsFold ["a=1", "b=2", "a=3"]) =
        lastValue (["a=1", "b=2", "a=3"].map tokenPair)) ∧
    kwargsAppendCall ["a=1", "b=2", "a=3"] = .ok [("a", "3"), ("b", "2")] :=
  ⟨by decide, by decide,
    claim_C5 ["a=1", "b=2", "a=3"] (by decide) (by decide), rfl⟩

/-- C6 (confirmed). For both mutually exclusive pairs the last-given flag
wins: the Mermaid toggle is false when the negation comes last or alone,
true when the affirmative comes last and true by default; and the
no-generated-by flag leaves the banner attribute explicitly `None`, which
is neither the default banner text nor the empty string. -/
theorem claim_C6 :
    renderMermaidAfterParse ["doc.md", "--render-mermaid", "--no-render-mermaid"] = some false ∧
    renderMermaidAfterParse ["doc.md", "--no-render-mermaid", "--render-mermaid"] = some true ∧
    renderMermaidAfterParse ["doc.md", "--no-render-mermaid"] = some false ∧
    renderMermaidAfterParse ["doc.md"] = some true ∧
    generatedByAfterParse ["doc.md", "--no-generated-by"] = some none ∧
    decide ((none : Option String) = some "This page has been generated with a tool.") = false ∧
    decide ((none : Option String) = some "") = false := by decide

/-- C7 (confirmed). For every command line whose parse sets the local-only
toggle, the run never acquires the remote publisher or synchronizes: it
configures logging and invokes the local `Processor` exactly once with the
input path, the assembled rendering options and the assembled connection
properties, and a failure raised there propagates uncaught. -/
theorem claim_C7 (argv : List String) (args : Arguments)
    (processResult enterResult syncResult : Except PyExc Unit)
    (h1 : parseArgs argv = .ok args) (h2 : args.«local» = true) :
    mainRun argv processResult enterResult syncResult =
      ([Event.configureLogging (Logging.levelAttr (pyUpper args.loglevel)),
        Event.processLocal (args.mdpath.getD "") (assembleOptions args)
          (assembleProperties args)],
       match processResult with
       | .ok _ => Outcome.normal
       | .error e => Outcome.uncaught e) := by
  simp only [mainRun, h1, dispatch, h2, if_true]
  cases processResult <;> rfl

/-- C7, instantiated at `doc.md --local` with a failing local renderer:
the failure propagates uncaught and no remote event appears. -/
theorem claim_C7_witness :
    parseArgs ["doc.md", "--local"] = .ok argsDocLocal ∧
    argsDocLocal.«local» = true ∧
    mainRun ["doc.md", "--local"] (.error (.other "renderer failure")) (.ok ()) (.ok ()) =
      ([Event.configureLogging 20,
        Event.processLocal "doc.md" (assembleOptions argsDocLocal)
          (assembleProperties argsDocLocal)],
       Outcome.uncaught (.other "renderer failure")) :=
  ⟨by decide, rfl,
    claim_C7 ["doc.md", "--local"] argsDocLocal
      (.error (.other "renderer failure")) (.ok ()) (.ok ()) (by decide) rfl⟩

/-- C8 (confirmed). The error surface catches exactly one failure class:
an HTTP transport failure raised inside the remote `with` block (either by
the synchronize call or while entering the block) ends the process with
exit code 1, every other exception there propagates uncaught, and every
failure of the local branch propagates uncaught whatever its class. -/
theorem claim_C8 (mdpath : String) (options : ConfluenceDocumentOptions)
    (properties : ConfluenceProperties) (e : PyExc)
    (processResult enterResult syncResult : Except PyExc Unit) :
    ((dispatch false mdpath options properties processResult (.ok ()) (.error e)).2 =
      match e with
      | .httpError _ _ => Outcome.exited 1
      | .other m => Outcome.uncaught (.other m)) ∧
    ((dispatch false mdpath options properties processResult (.error e) syncResult).2 =
      match e with
      | .httpError _ _ => Outcome.exited 1
      | .other m => Outcome.uncaught (.other m)) ∧
    ((dispatch true mdpath options properties (.error e) enterResult syncResult).2 =
      Outcome.uncaught e) := by
  refine ⟨?_, ?_, ?_⟩ <;> cases e <;> rfl

/-- C9 (confirmed). On the remote branch the publisher handle is a scoped
resource: once entering the block succeeds, the trace begins with the
acquisition, immediately followed by the synchronize call and then by the
release, on the normal exit and on every failing exit alike; the local
branch consists of the single local-renderer call and acquires no handle. -/
theorem claim_C9 (mdpath : String) (options : ConfluenceDocumentOptions)
    (properties : ConfluenceProperties)
    (processResult enterResult syncResult : Except PyExc Unit) :
    ((dispatch false mdpath options properties processResult (.ok ()) syncResult).1.take 3 =
      [Event.acquireAPI properties, Event.synchronize mdpath options, Event.releaseAPI]) ∧
    ((dispatch true mdpath options properties processResult enterResult syncResult).1 =
      [Event.processLocal mdpath options properties]) := by
  constructor
  · cases syncResult with
    | ok u => rfl
    | error e => cases e <;> rfl
  · cases processResult <;> rfl

/-- C10 (confirmed). A bare `--headers` with zero following tokens parses
successfully and yields the EMPTY header map, while an absent flag yields
`None`: the two cases are distinct values. -/
theorem claim_C10 :
    headersAfterParse ["doc.md", "--headers"] = some (some []) ∧
    headersAfterParse ["doc.md"] = some none ∧
    decide ((some ([] : List (String × String)) : Option (List (String × String))) = none)
      = false := by decide

end Md2Conf
